import Mathlib

/-!
Verification of the ERPRO storage layer (src/server/storage.ts, routes in the
same file, tables in src/shared/schema.ts) against its specification.

Modelling conventions:
* Each PostgreSQL table row is a Lean structure mirroring the drizzle column
  list in src/shared/schema.ts; a table is a `List` of rows.
* SQL `date` columns (ISO strings compared lexicographically, which agrees
  with chronological order) and `timestamp` columns are modelled as `Nat`;
  nullable columns are `Option`.
* The current time (`new Date()` / `hoje`) is passed as an explicit `now`
  or `hoje` parameter; generated identity keys as an explicit `nextId`.
* The drizzle select builder is modelled by `SelectQuery`. Its `.where`
  method stores the condition, REPLACING any previously stored one -- this
  is drizzle-orm's actual runtime behaviour (the builder assigns
  `config.where`; chained `.where` calls do not conjoin). The storage
  functions below reproduce the exact chain of builder calls in the source.
* JavaScript truthiness in the guards `if (filters?.x)` is modelled
  faithfully: an absent field or an empty string (or the number 0) skips
  the corresponding `.where` call.
-/

namespace ERPRO

/-- Row of the `pessoas` table (src/shared/schema.ts): every column in
declaration order. `isActive` defaults to true, timestamps to `now`. -/
structure Pessoa where
  id : Nat
  nome : String
  nomeSocial : Option String
  cpf : String
  rg : Option String
  dataNascimento : Nat
  sexo : String
  estadoCivil : Option String
  nomePai : Option String
  nomeMae : Option String
  telefone : Option String
  email : Option String
  endereco : Option String
  municipioId : Option Nat
  cep : Option String
  tipoPessoa : String
  isActive : Bool
  createdAt : Nat
  updatedAt : Nat
deriving DecidableEq

/-- Row of the `afastamentos` table. `dataFim` is nullable (null = ongoing). -/
structure Afastamento where
  id : Nat
  pessoaId : Nat
  tipoAfastamentoId : Nat
  dataInicio : Nat
  dataFim : Option Nat
  motivo : Option String
  numeroProcesso : Option String
  observacoes : Option String
  isActive : Bool
  createdAt : Nat
  updatedAt : Nat
deriving DecidableEq

/-- Row of the `diarias` table. The decimal currency columns are strings in
drizzle's representation and are never interpreted numerically here. -/
structure Diaria where
  id : Nat
  pessoaId : Nat
  statusId : Nat
  destino : String
  finalidade : String
  dataInicio : Nat
  dataFim : Nat
  valorDiaria : Option String
  valorTransporte : Option String
  valorTotal : Option String
  observacoes : Option String
  numeroProcesso : Option String
  isActive : Bool
  createdAt : Nat
  updatedAt : Nat
deriving DecidableEq

/-- Row of the `armamento` table. -/
structure Armamento where
  id : Nat
  numeroSerie : String
  tipoArmaId : Nat
  marca : Option String
  modelo : Option String
  anoFabricacao : Option Nat
  situacao : String
  observacoes : Option String
  isActive : Bool
  createdAt : Nat
  updatedAt : Nat
deriving DecidableEq

/-- `InsertPessoa = z.infer<typeof insertPessoaSchema>`: all `pessoas`
columns except `id`, `createdAt`, `updatedAt`. Columns with a database
default (`isActive`) are optional in the zod schema, hence `Option Bool`
(`none` = field absent, the database default `true` applies). -/
structure InsertPessoa where
  nome : String
  nomeSocial : Option String := none
  cpf : String
  rg : Option String := none
  dataNascimento : Nat
  sexo : String
  estadoCivil : Option String := none
  nomePai : Option String := none
  nomeMae : Option String := none
  telefone : Option String := none
  email : Option String := none
  endereco : Option String := none
  municipioId : Option Nat := none
  cep : Option String := none
  tipoPessoa : String
  isActive : Option Bool := none
deriving DecidableEq

/-- `Partial<InsertPessoa>`: every field may be absent (`none` = key not
present, the column is left untouched by `.set`). For columns that are
nullable in the table the present value is itself an `Option`. -/
structure PatchPessoa where
  nome : Option String := none
  nomeSocial : Option (Option String) := none
  cpf : Option String := none
  rg : Option (Option String) := none
  dataNascimento : Option Nat := none
  sexo : Option String := none
  estadoCivil : Option (Option String) := none
  nomePai : Option (Option String) := none
  nomeMae : Option (Option String) := none
  telefone : Option (Option String) := none
  email : Option (Option String) := none
  endereco : Option (Option String) := none
  municipioId : Option (Option Nat) := none
  cep : Option (Option String) := none
  tipoPessoa : Option String := none
  isActive : Option Bool := none
deriving DecidableEq

/-- The drizzle select builder: the row source plus the (single) stored
`where` condition. -/
structure SelectQuery (α : Type) where
  rows : List α
  cond : Option (α → Bool)

/-- `db.select().from(tbl)`: no condition stored yet. -/
def SelectQuery.fromTable (tbl : List α) : SelectQuery α := ⟨tbl, none⟩

/-- The builder's `.where(c)`: stores `c`, REPLACING any previously stored
condition (drizzle assigns `config.where = c`; repeated calls are
last-writer-wins, they do not conjoin). -/
def SelectQuery.whereSet (q : SelectQuery α) (c : α → Bool) : SelectQuery α :=
  ⟨q.rows, some c⟩

/-- Executing the built query without an `orderBy`: filter by the stored
condition (a missing condition keeps every row). -/
def SelectQuery.exec (q : SelectQuery α) : List α :=
  match q.cond with
  | none => q.rows
  | some c => q.rows.filter c

/-- Sort a list by a numeric key, descending (SQL `ORDER BY key DESC`,
also the comparator `(a, b) => b.key - a.key` of `Array.prototype.sort`). -/
def sortByKeyDesc (key : α → Nat) (l : List α) : List α :=
  l.insertionSort (fun a b => key b ≤ key a)

/-- Executing the built query with `.orderBy(desc(key))`. -/
def SelectQuery.orderByDesc (q : SelectQuery α) (key : α → Nat) : List α :=
  sortByKeyDesc key q.exec

@[simp] theorem SelectQuery.exec_whereSet (q : SelectQuery α) (c : α → Bool) :
    (q.whereSet c).exec = q.rows.filter c := rfl

@[simp] theorem SelectQuery.rows_fromTable (tbl : List α) :
    (SelectQuery.fromTable tbl).rows = tbl := rfl

theorem sortByKeyDesc_sorted (key : α → Nat) (l : List α) :
    (sortByKeyDesc key l).Pairwise (fun a b => key b ≤ key a) := by
  haveI : IsTotal α (fun a b => key b ≤ key a) :=
    ⟨fun a b => Nat.le_total (key b) (key a)⟩
  haveI : IsTrans α (fun a b => key b ≤ key a) :=
    ⟨fun _ _ _ hab hbc => Nat.le_trans hbc hab⟩
  exact List.sorted_insertionSort _ l

@[simp] theorem length_sortByKeyDesc (key : α → Nat) (l : List α) :
    (sortByKeyDesc key l).length = l.length :=
  List.length_insertionSort _ l

@[simp] theorem mem_sortByKeyDesc {key : α → Nat} {l : List α} {x : α} :
    x ∈ sortByKeyDesc key l ↔ x ∈ l :=
  List.mem_insertionSort _

/-- Prefix test on character lists, used to model SQL `LIKE`. -/
def startsWithChars : List Char → List Char → Bool
  | _, [] => true
  | [], _ :: _ => false
  | a :: as, b :: bs => a == b && startsWithChars as bs

/-- Substring test on character lists. -/
def hasSubChars (pat : List Char) : List Char → Bool
  | [] => pat.isEmpty
  | h :: t => startsWithChars (h :: t) pat || hasSubChars pat t

/-- `like(col, ..pat..)` with a percent sign on both ends of the pattern:
`pat` occurs somewhere inside `s` (pattern metacharacters inside the filter
string itself are not modelled). -/
def strContains (s pat : String) : Bool :=
  hasSubChars pat.data s.data

/-- Filter argument of `getPessoas` (`{nome?, cpf?, tipoPessoa?}`). -/
structure GetPessoasFilters where
  nome : Option String := none
  cpf : Option String := none
  tipoPessoa : Option String := none

/-- `DatabaseStorage.getPessoas`: starts from `where(isActive = true)` and
then, for each truthy filter, issues another `.where` call on the builder
(which replaces the stored condition), finally `orderBy(desc(createdAt))`. -/
def getPessoas (filters : GetPessoasFilters) (tbl : List Pessoa) : List Pessoa :=
  let query := (SelectQuery.fromTable tbl).whereSet (fun p => p.isActive)
  let query := match filters.nome with
    | some n => if n = "" then query else query.whereSet (fun p => strContains p.nome n)
    | none => query
  let query := match filters.cpf with
    | some c => if c = "" then query else query.whereSet (fun p => p.cpf == c)
    | none => query
  let query := match filters.tipoPessoa with
    | some t => if t = "" then query else query.whereSet (fun p => p.tipoPessoa == t)
    | none => query
  query.orderByDesc (fun p => p.createdAt)

/-- `DatabaseStorage.getPessoaById`: single `where(and(id = id, isActive))`,
first row of the result (array destructuring). -/
def getPessoaById (id : Nat) (tbl : List Pessoa) : Option Pessoa :=
  (((SelectQuery.fromTable tbl).whereSet (fun p => p.id == id && p.isActive)).exec).head?

/-- `DatabaseStorage.getPessoaByCpf`: single `where(and(cpf = cpf, isActive))`,
first row of the result. -/
def getPessoaByCpf (cpf : String) (tbl : List Pessoa) : Option Pessoa :=
  (((SelectQuery.fromTable tbl).whereSet (fun p => p.cpf == cpf && p.isActive)).exec).head?

/-- The row produced by `db.insert(pessoas).values(ins).returning()`:
identity key `nextId`, database defaults for `isActive` (true) and the
timestamps (`now`). -/
def rowOfInsert (ins : InsertPessoa) (nextId now : Nat) : Pessoa :=
  { id := nextId, nome := ins.nome, nomeSocial := ins.nomeSocial, cpf := ins.cpf,
    rg := ins.rg, dataNascimento := ins.dataNascimento, sexo := ins.sexo,
    estadoCivil := ins.estadoCivil, nomePai := ins.nomePai, nomeMae := ins.nomeMae,
    telefone := ins.telefone, email := ins.email, endereco := ins.endereco,
    municipioId := ins.municipioId, cep := ins.cep, tipoPessoa := ins.tipoPessoa,
    isActive := ins.isActive.getD true, createdAt := now, updatedAt := now }

/-- `DatabaseStorage.createPessoa`: plain insert. The error branch models
PostgreSQL rejecting the statement on the `pessoas.cpf` UNIQUE constraint
declared in src/shared/schema.ts (the constraint sees every row, soft-deleted
ones included); the storage layer itself performs no check. -/
def createPessoa (ins : InsertPessoa) (nextId now : Nat) (tbl : List Pessoa) :
    Except Unit (Pessoa × List Pessoa) :=
  if tbl.any (fun p => p.cpf == ins.cpf) then Except.error ()
  else
    let novaPessoa := rowOfInsert ins nextId now
    Except.ok (novaPessoa, tbl ++ [novaPessoa])

/-- Applying the spread `{...pessoa}` of a `Partial<InsertPessoa>` in
`.set`: keys present in the patch overwrite the columns, absent keys leave
them untouched. -/
def applyPatch (p : Pessoa) (t : PatchPessoa) : Pessoa :=
  { p with
    nome := t.nome.getD p.nome,
    nomeSocial := t.nomeSocial.getD p.nomeSocial,
    cpf := t.cpf.getD p.cpf,
    rg := t.rg.getD p.rg,
    dataNascimento := t.dataNascimento.getD p.dataNascimento,
    sexo := t.sexo.getD p.sexo,
    estadoCivil := t.estadoCivil.getD p.estadoCivil,
    nomePai := t.nomePai.getD p.nomePai,
    nomeMae := t.nomeMae.getD p.nomeMae,
    telefone := t.telefone.getD p.telefone,
    email := t.email.getD p.email,
    endereco := t.endereco.getD p.endereco,
    municipioId := t.municipioId.getD p.municipioId,
    cep := t.cep.getD p.cep,
    tipoPessoa := t.tipoPessoa.getD p.tipoPessoa,
    isActive := t.isActive.getD p.isActive }

/-- The `.set({...pessoa, updatedAt: new Date()})` payload of
`updatePessoa`: the patch plus an unconditional `updatedAt` re-stamp. -/
def setPessoa (p : Pessoa) (t : PatchPessoa) (now : Nat) : Pessoa :=
  { applyPatch p t with updatedAt := now }

/-- `DatabaseStorage.updatePessoa`: updates every row matching
`where(id = id)` (no `isActive` condition) and returns the first row of
`.returning()` -- `none` when no row matched, the "fails silently" case. -/
def updatePessoa (id : Nat) (t : PatchPessoa) (now : Nat) (tbl : List Pessoa) :
    List Pessoa × Option Pessoa :=
  (tbl.map (fun p => if p.id == id then setPessoa p t now else p),
   ((tbl.filter (fun p => p.id == id)).map (fun p => setPessoa p t now)).head?)

/-- `DatabaseStorage.deletePessoa`: soft delete,
`.set({isActive: false, updatedAt: new Date()}).where(id = id)`. -/
def deletePessoa (id : Nat) (now : Nat) (tbl : List Pessoa) : List Pessoa :=
  tbl.map (fun p => if p.id == id then { p with isActive := false, updatedAt := now } else p)

/-- Filter argument of `getAfastamentos` (`{pessoaId?, ativo?}` in
`IStorage`). -/
structure GetAfastamentosFilters where
  pessoaId : Option Nat := none
  ativo : Option Bool := none

/-- `DatabaseStorage.getAfastamentos`: `where(isActive = true)`, then a
replacing `.where(pessoaId = ..)` when that filter is truthy; the declared
`ativo` filter is never read by the implementation. -/
def getAfastamentos (filters : GetAfastamentosFilters) (tbl : List Afastamento) :
    List Afastamento :=
  let query := (SelectQuery.fromTable tbl).whereSet (fun a => a.isActive)
  let query := match filters.pessoaId with
    | some i => if i = 0 then query else query.whereSet (fun a => a.pessoaId == i)
    | none => query
  query.orderByDesc (fun a => a.createdAt)

/-- Result shape of `getDashboardStats`. -/
structure DashboardStats where
  totalServidores : Nat
  afastamentosAtivos : Nat
  diariasPendentes : Nat
  armamentoEmUso : Nat
deriving DecidableEq

/-- `DatabaseStorage.getDashboardStats`: four independent
`select({count: count()})` queries, each with a single `where(and(...))`.
`hoje` is the ISO date string of the current day. -/
def getDashboardStats (hoje : Nat) (pess : List Pessoa) (afs : List Afastamento)
    (dias : List Diaria) (arms : List Armamento) : DashboardStats :=
  { totalServidores :=
      (((SelectQuery.fromTable pess).whereSet
        (fun p => p.isActive && p.tipoPessoa == "S")).exec).length,
    afastamentosAtivos :=
      (((SelectQuery.fromTable afs).whereSet
        (fun a => a.isActive && decide (a.dataInicio ≤ hoje) &&
          (match a.dataFim with
           | none => true
           | some f => decide (hoje ≤ f)))).exec).length,
    diariasPendentes :=
      (((SelectQuery.fromTable dias).whereSet
        (fun d => d.isActive && d.statusId == 1)).exec).length,
    armamentoEmUso :=
      (((SelectQuery.fromTable arms).whereSet
        (fun w => w.isActive && w.situacao == "EM_USO")).exec).length }

/-- Element shape of the `getRecentActivities` result. -/
structure Atividade where
  id : Nat
  tipo : String
  descricao : String
  data : Nat
  pessoaNome : Option String
deriving DecidableEq

/-- `DatabaseStorage.getRecentActivities`: the 3 most recently created
active pessoas and the 2 most recently created active diarias (left-joined
with pessoas for the name; `|| undefined` maps a null or empty name to
absent), pushed into one array and sorted by date descending. -/
def getRecentActivities (pess : List Pessoa) (dias : List Diaria) : List Atividade :=
  sortByKeyDesc (fun a => a.data)
    (((((SelectQuery.fromTable pess).whereSet (fun p => p.isActive)).orderByDesc
        (fun p => p.createdAt)).take 3).map (fun p =>
      { id := p.id, tipo := "pessoa_criada",
        descricao := "Nova pessoa cadastrada: " ++ p.nome,
        data := p.createdAt, pessoaNome := some p.nome }) ++
     ((((SelectQuery.fromTable dias).whereSet (fun d => d.isActive)).orderByDesc
        (fun d => d.createdAt)).take 2).map (fun d =>
      { id := d.id, tipo := "diaria_criada",
        descricao := "Nova diária criada para " ++ d.destino,
        data := d.createdAt,
        pessoaNome :=
          match pess.find? (fun p => p.id == d.pessoaId) with
          | some p => if p.nome = "" then none else some p.nome
          | none => none }))

/-- Route handler `POST /api/pessoas` (registerRoutes): body already
validated by `insertPessoaSchema.parse`; pre-checks the CPF with
`getPessoaByCpf` (400 on a hit), otherwise inserts; a storage error (the
unique-constraint rejection) is caught by the generic handler as 500.
Returns the HTTP status and the resulting pessoas table. -/
def postPessoas (body : InsertPessoa) (nextId now : Nat) (tbl : List Pessoa) :
    Nat × List Pessoa :=
  match getPessoaByCpf body.cpf tbl with
  | some _ => (400, tbl)
  | none =>
    match createPessoa body nextId now tbl with
    | Except.ok (_, tbl2) => (201, tbl2)
    | Except.error _ => (500, tbl)

/-- Decidability of the derived-state bound on a nullable end date. -/
instance decForallMemLe (n : Nat) (o : Option Nat) : Decidable (∀ f ∈ o, n ≤ f) :=
  match o with
  | none => isTrue (by simp)
  | some x => decidable_of_iff (n ≤ x) (by simp)

/-- Concrete `pessoas` row with the optional columns null, used by the
concrete instances below. -/
def mkPessoa (id : Nat) (nome cpf tipoPessoa : String) (ativoFlag : Bool)
    (created : Nat) : Pessoa :=
  { id := id, nome := nome, nomeSocial := none, cpf := cpf, rg := none,
    dataNascimento := 0, sexo := "M", estadoCivil := none, nomePai := none,
    nomeMae := none, telefone := none, email := none, endereco := none,
    municipioId := none, cep := none, tipoPessoa := tipoPessoa,
    isActive := ativoFlag, createdAt := created, updatedAt := created }

/-- A soft-deleted person that still holds CPF 12345678901. -/
def ghostPessoa : Pessoa := mkPessoa 7 "Maria Fantasma" "12345678901" "S" false 10

/-- An active person named Ana. -/
def pessoaAna : Pessoa := mkPessoa 1 "Ana" "11122233344" "S" true 5

/-- A soft-deleted person named Bruno. -/
def pessoaBruno : Pessoa := mkPessoa 2 "Bruno" "55566677788" "T" false 9

/-- An active person used as update/delete target. -/
def pessoaViva : Pessoa := mkPessoa 3 "Carlos" "99900011122" "S" true 2

/-- C1: failing-input evaluation. On a table whose only row is soft-deleted,
`getPessoas` with a cpf filter returns that row: the chained `.where(cpf=..)`
replaced the `isActive = true` condition, so a soft-deleted person appears
in the result. -/
theorem getPessoas_cpf_filter_returns_inactive :
    getPessoas { cpf := some "12345678901" } [ghostPessoa] = [ghostPessoa] ∧
    ghostPessoa.isActive = false := by
  decide

/-- C4: failing-input evaluation. With both a nome and a cpf filter, only
the last-installed condition (cpf) is applied: the returned row neither
contains the requested nome substring nor is active, refuting the
claimed conjunctive filter semantics. -/
theorem getPessoas_filters_not_conjunctive :
    getPessoas { nome := some "Ana", cpf := some "55566677788" }
        [pessoaAna, pessoaBruno] = [pessoaBruno] ∧
    strContains pessoaBruno.nome "Ana" = false ∧
    pessoaBruno.isActive = false := by
  decide

/-- C9: the `ativo` member of the filter object is accepted by the
interface but never read by `getAfastamentos`, so any two values of it
(present or absent) produce identical results. -/
theorem getAfastamentos_ativo_no_effect (tbl : List Afastamento)
    (pid : Option Nat) (a1 a2 : Option Bool) :
    getAfastamentos { pessoaId := pid, ativo := a1 } tbl =
      getAfastamentos { pessoaId := pid, ativo := a2 } tbl := rfl

/-- C5: `deletePessoa` is a soft delete. When some row carries the id, the
row survives with `isActive = false`, the table keeps its length (no
physical removal), a subsequent `getPessoaById` finds nothing, and a second
delete at the same instant leaves the state unchanged (idempotence). -/
theorem deletePessoa_soft_delete (id now : Nat) (tbl : List Pessoa)
    (h : ∃ p ∈ tbl, p.id = id) :
    (∃ q ∈ deletePessoa id now tbl, q.id = id ∧ q.isActive = false) ∧
    (deletePessoa id now tbl).length = tbl.length ∧
    getPessoaById id (deletePessoa id now tbl) = none ∧
    deletePessoa id now (deletePessoa id now tbl) = deletePessoa id now tbl := by
  obtain ⟨p, hp, hid⟩ := h
  refine ⟨⟨{ p with isActive := false, updatedAt := now }, ?_, hid, rfl⟩, ?_, ?_, ?_⟩
  · unfold deletePessoa
    exact List.mem_map.mpr ⟨p, hp, by simp [hid]⟩
  · simp [deletePessoa]
  · have hnil : List.filter (fun q => q.id == id && q.isActive)
        (deletePessoa id now tbl) = [] := by
      rw [List.filter_eq_nil_iff]
      intro a ha
      simp only [deletePessoa, List.mem_map] at ha
      obtain ⟨q, _, rfl⟩ := ha
      by_cases hqid : q.id == id
      · simp [hqid]
      · simp [hqid]
    simp only [getPessoaById, SelectQuery.exec_whereSet, SelectQuery.rows_fromTable]
    rw [hnil]
    rfl
  · unfold deletePessoa
    rw [List.map_map]
    apply List.map_congr_left
    intro a _
    by_cases hqid : a.id == id
    · simp [Function.comp, hqid]
    · simp [Function.comp, hqid]

/-- C5 witness: the soft-delete theorem instantiated on a one-row table. -/
theorem deletePessoa_soft_delete_witness :
    (∃ q ∈ deletePessoa 3 8 [pessoaViva], q.id = 3 ∧ q.isActive = false) ∧
    (deletePessoa 3 8 [pessoaViva]).length = [pessoaViva].length ∧
    getPessoaById 3 (deletePessoa 3 8 [pessoaViva]) = none ∧
    deletePessoa 3 8 (deletePessoa 3 8 [pessoaViva]) = deletePessoa 3 8 [pessoaViva] :=
  deletePessoa_soft_delete 3 8 [pessoaViva] ⟨pessoaViva, by decide, by decide⟩

/-- C6: `updatePessoa` re-stamps `updatedAt` on every matched row, so under
a monotone clock (`now` at least every stored stamp) no stored `updatedAt`
decreases; and with no matching id the returned record is `none` (silent
no-op, no thrown error). -/
theorem updatePessoa_restamps_and_silent (id : Nat) (t : PatchPessoa) (now : Nat)
    (tbl : List Pessoa) (hclock : ∀ p ∈ tbl, p.updatedAt ≤ now) :
    List.Forall₂ (fun old new => old.updatedAt ≤ new.updatedAt) tbl
      (updatePessoa id t now tbl).1 ∧
    ((∀ p ∈ tbl, p.id ≠ id) → (updatePessoa id t now tbl).2 = none) := by
  constructor
  · have hrw : (updatePessoa id t now tbl).1 =
        tbl.map (fun p => if p.id == id then setPessoa p t now else p) := rfl
    rw [hrw, List.forall₂_map_right_iff, List.forall₂_same]
    intro x hx
    by_cases hxid : x.id == id
    · simpa [hxid, setPessoa] using hclock x hx
    · simp [hxid]
  · intro hno
    have hnil : tbl.filter (fun p => p.id == id) = [] := by
      rw [List.filter_eq_nil_iff]
      intro a ha
      simpa using hno a ha
    simp [updatePessoa, hnil]

/-- C6 witness: one-row table, update of a non-existent id re-stamps
nothing and returns `none`. -/
theorem updatePessoa_restamps_and_silent_witness :
    List.Forall₂ (fun old new => old.updatedAt ≤ new.updatedAt) [pessoaViva]
      (updatePessoa 4 {} 9 [pessoaViva]).1 ∧
    (updatePessoa 4 {} 9 [pessoaViva]).2 = none :=
  ⟨(updatePessoa_restamps_and_silent 4 {} 9 [pessoaViva] (by decide)).1,
   (updatePessoa_restamps_and_silent 4 {} 9 [pessoaViva] (by decide)).2 (by decide)⟩

/-- First element of a nonempty list all of whose elements coincide. -/
theorem head?_of_all_eq {l : List α} {a : α} (hmem : a ∈ l)
    (hall : ∀ x ∈ l, x = a) : l.head? = some a := by
  cases l with
  | nil => cases hmem
  | cons b t => simp [hall b (List.mem_cons_self b t)]

/-- C10: `updatePessoa` matches on the id alone, so it updates a
soft-deleted row and returns the updated row; a patch with
`isActive = true` resurrects the person for `getPessoaById`. -/
theorem updatePessoa_targets_inactive (id : Nat) (t : PatchPessoa) (now : Nat)
    (tbl : List Pessoa) (p : Pessoa) (hp : p ∈ tbl) (hid : p.id = id)
    (hdead : p.isActive = false) (huniq : ∀ q ∈ tbl, q.id = id → q = p) :
    (updatePessoa id t now tbl).2 = some (setPessoa p t now) ∧
    (t.isActive = some true →
      getPessoaById id (updatePessoa id t now tbl).1 = some (setPessoa p t now)) := by
  constructor
  · show ((tbl.filter (fun q => q.id == id)).map (fun q => setPessoa q t now)).head?
        = some (setPessoa p t now)
    apply head?_of_all_eq
    · exact List.mem_map.mpr ⟨p, List.mem_filter.mpr ⟨hp, by simp [hid]⟩, rfl⟩
    · intro x hx
      obtain ⟨q, hq, rfl⟩ := List.mem_map.mp hx
      obtain ⟨hq1, hq2⟩ := List.mem_filter.mp hq
      rw [huniq q hq1 (by simpa using hq2)]
  · intro hres
    have hrw : (updatePessoa id t now tbl).1 =
        tbl.map (fun q => if q.id == id then setPessoa q t now else q) := rfl
    simp only [getPessoaById, SelectQuery.exec_whereSet, SelectQuery.rows_fromTable, hrw]
    apply head?_of_all_eq
    · apply List.mem_filter.mpr
      constructor
      · exact List.mem_map.mpr ⟨p, hp, by simp [hid]⟩
      · simp [setPessoa, applyPatch, hid, hres]
    · intro x hx
      obtain ⟨hx1, hx2⟩ := List.mem_filter.mp hx
      obtain ⟨q, hq, rfl⟩ := List.mem_map.mp hx1
      by_cases hqid : q.id == id
      · have hq2 := huniq q hq (by simpa using hqid)
        subst hq2
        simp [hid]
      · rw [if_neg hqid] at hx2 ⊢
        exact absurd hx2 (by simp [hqid])

/-- A soft-deleted person used as resurrection target. -/
def pessoaMorta : Pessoa := mkPessoa 4 "Diana" "44455566677" "S" false 3

/-- C10 witness: updating the soft-deleted Diana with
`{isActive: true}` returns the updated row and makes her visible again. -/
theorem updatePessoa_targets_inactive_witness :
    (updatePessoa 4 { isActive := some true } 9 [pessoaMorta]).2
      = some (setPessoa pessoaMorta { isActive := some true } 9) ∧
    getPessoaById 4 (updatePessoa 4 { isActive := some true } 9 [pessoaMorta]).1
      = some (setPessoa pessoaMorta { isActive := some true } 9) := by
  have h := updatePessoa_targets_inactive 4 { isActive := some true } 9 [pessoaMorta]
    pessoaMorta (by decide) (by decide) (by decide) (by decide)
  exact ⟨h.1, h.2 rfl⟩

/-- An active person already holding CPF 12345678901. -/
def pessoaMaria : Pessoa := mkPessoa 1 "Maria Silva" "12345678901" "S" true 1

/-- A valid creation payload that reuses CPF 12345678901. -/
def bodyJose : InsertPessoa :=
  { nome := "Jose Souza", cpf := "12345678901", dataNascimento := 4,
    sexo := "M", tipoPessoa := "S" }

/-- C2 counterexample: when the only holder of the CPF is soft-deleted, the
pre-check (which looks at active rows only) passes, the insert is rejected
by the unique constraint, and the route answers 500 -- not the claimed 400
-- although the stored set is indeed unchanged. -/
theorem postPessoas_inactive_duplicate_is_500 :
    postPessoas bodyJose 2 9 [ghostPessoa] = (500, [ghostPessoa]) ∧
    (postPessoas bodyJose 2 9 [ghostPessoa]).1 ≠ 400 := by
  decide

/-- C2 (amended): when an ACTIVE person already holds the CPF, the POST
answers 400 and leaves the table unchanged; and whenever any person
(active or not) holds the CPF, the stored set is unchanged. -/
theorem postPessoas_duplicate_cpf (body : InsertPessoa) (nextId now : Nat)
    (tbl : List Pessoa) :
    ((∃ q ∈ tbl, q.cpf = body.cpf ∧ q.isActive = true) →
      postPessoas body nextId now tbl = (400, tbl)) ∧
    ((∃ q ∈ tbl, q.cpf = body.cpf) → (postPessoas body nextId now tbl).2 = tbl) := by
  constructor
  · rintro ⟨q, hq, hcpf, hact⟩
    have hqf : q ∈ tbl.filter (fun p => p.cpf == body.cpf && p.isActive) :=
      List.mem_filter.mpr ⟨hq, by simp [hcpf, hact]⟩
    have hsome : ∃ a, getPessoaByCpf body.cpf tbl = some a := by
      simp only [getPessoaByCpf, SelectQuery.exec_whereSet, SelectQuery.rows_fromTable]
      cases hfl : tbl.filter (fun p => p.cpf == body.cpf && p.isActive) with
      | nil => rw [hfl] at hqf; cases hqf
      | cons a l2 => exact ⟨a, rfl⟩
    obtain ⟨a, ha⟩ := hsome
    simp [postPessoas, ha]
  · rintro ⟨q, hq, hcpf⟩
    cases hby : getPessoaByCpf body.cpf tbl with
    | some x => simp [postPessoas, hby]
    | none =>
      have hany : tbl.any (fun p => p.cpf == body.cpf) = true :=
        List.any_eq_true.mpr ⟨q, hq, by simp [hcpf]⟩
      simp [postPessoas, hby, createPessoa, hany]

/-- C2 witness: duplicate POST against the active Maria answers 400 and
keeps the single row. -/
theorem postPessoas_duplicate_cpf_witness :
    postPessoas bodyJose 2 9 [pessoaMaria] = (400, [pessoaMaria]) ∧
    (postPessoas bodyJose 2 9 [pessoaMaria]).2 = [pessoaMaria] := by
  have h := postPessoas_duplicate_cpf bodyJose 2 9 [pessoaMaria]
  exact ⟨h.1 ⟨pessoaMaria, by decide, by decide, by decide⟩,
         h.2 ⟨pessoaMaria, by decide, by decide⟩⟩

/-- A schema-valid payload that explicitly sets `isActive = false`. -/
def bodyNati : InsertPessoa :=
  { nome := "Nati", cpf := "99988877766", dataNascimento := 4, sexo := "F",
    tipoPessoa := "S", isActive := some false }

/-- C8 counterexample: a valid payload may carry `isActive = false`
(the insert schema keeps that column); the row is created, but the
immediate `getPessoaByCpf` filters on `isActive = true` and returns
nothing instead of the created record. -/
theorem createPessoa_inactive_payload_invisible :
    createPessoa bodyNati 1 5 [] =
      Except.ok (rowOfInsert bodyNati 1 5, [rowOfInsert bodyNati 1 5]) ∧
    getPessoaByCpf bodyNati.cpf [rowOfInsert bodyNati 1 5] = none :=
  ⟨rfl, by decide⟩

/-- C8 (amended): for a payload whose CPF is fresh and whose `isActive`
field is not explicitly false, `createPessoa` succeeds and the immediate
`getPessoaByCpf` with the same CPF returns exactly the created record. -/
theorem createPessoa_read_your_writes (ins : InsertPessoa) (nextId now : Nat)
    (tbl : List Pessoa) (hfresh : ∀ q ∈ tbl, q.cpf ≠ ins.cpf)
    (hact : ins.isActive ≠ some false) :
    createPessoa ins nextId now tbl
        = Except.ok (rowOfInsert ins nextId now, tbl ++ [rowOfInsert ins nextId now]) ∧
    getPessoaByCpf ins.cpf (tbl ++ [rowOfInsert ins nextId now])
        = some (rowOfInsert ins nextId now) := by
  have hany : tbl.any (fun p => p.cpf == ins.cpf) = false :=
    List.any_eq_false.mpr (fun a ha => by simp [hfresh a ha])
  have hactive : (rowOfInsert ins nextId now).isActive = true := by
    cases hia : ins.isActive with
    | none => simp [rowOfInsert, hia]
    | some b =>
      cases b with
      | false => exact absurd hia hact
      | true => simp [rowOfInsert, hia]
  constructor
  · simp [createPessoa, hany]
  · simp only [getPessoaByCpf, SelectQuery.exec_whereSet, SelectQuery.rows_fromTable,
      List.filter_append]
    have h1 : tbl.filter (fun p => p.cpf == ins.cpf && p.isActive) = [] := by
      rw [List.filter_eq_nil_iff]
      intro a ha
      simp [hfresh a ha]
    have hpred : ((rowOfInsert ins nextId now).cpf == ins.cpf &&
        (rowOfInsert ins nextId now).isActive) = true := by
      rw [hactive]
      simp [rowOfInsert]
    have h2 : [rowOfInsert ins nextId now].filter
        (fun p => p.cpf == ins.cpf && p.isActive) = [rowOfInsert ins nextId now] := by
      simp only [List.filter_cons, hpred, List.filter_nil, if_true]
    rw [h1, h2]
    rfl

/-- C8 witness: creating Jose on an empty table and reading him back by
CPF returns the created row. -/
theorem createPessoa_read_your_writes_witness :
    createPessoa bodyJose 2 9 []
        = Except.ok (rowOfInsert bodyJose 2 9, [] ++ [rowOfInsert bodyJose 2 9]) ∧
    getPessoaByCpf bodyJose.cpf ([] ++ [rowOfInsert bodyJose 2 9])
        = some (rowOfInsert bodyJose 2 9) :=
  createPessoa_read_your_writes bodyJose 2 9 [] (by decide) (by decide)

/-- C3: the four dashboard counters count exactly (1) the active persons of
type S (Servidor/Staff), (2) the active absences currently in force
(start at most today and end absent or at least today), (3) the active
per-diem rows whose status id is the hardcoded pending sentinel 1, and
(4) the active weapons whose situation is EM_USO; on the fixture of three
active type-S persons and two active type-T persons `totalServidores = 3`. -/
theorem getDashboardStats_counts (hoje : Nat) (pess : List Pessoa)
    (afs : List Afastamento) (dias : List Diaria) (arms : List Armamento) :
    (getDashboardStats hoje pess afs dias arms).totalServidores
        = pess.countP (fun p => decide (p.isActive = true ∧ p.tipoPessoa = "S")) ∧
    (getDashboardStats hoje pess afs dias arms).afastamentosAtivos
        = afs.countP (fun a => decide (a.isActive = true ∧ a.dataInicio ≤ hoje ∧
            ∀ f ∈ a.dataFim, hoje ≤ f)) ∧
    (getDashboardStats hoje pess afs dias arms).diariasPendentes
        = dias.countP (fun d => decide (d.isActive = true ∧ d.statusId = 1)) ∧
    (getDashboardStats hoje pess afs dias arms).armamentoEmUso
        = arms.countP (fun w => decide (w.isActive = true ∧ w.situacao = "EM_USO")) ∧
    (getDashboardStats hoje
        [mkPessoa 1 "P1" "10000000001" "S" true 1, mkPessoa 2 "P2" "10000000002" "S" true 2,
         mkPessoa 3 "P3" "10000000003" "S" true 3, mkPessoa 4 "P4" "10000000004" "T" true 4,
         mkPessoa 5 "P5" "10000000005" "T" true 5] [] [] []).totalServidores = 3 := by
  refine ⟨?_, ?_, ?_, ?_, rfl⟩
  · rw [List.countP_eq_length_filter]
    show (pess.filter (fun p => p.isActive && p.tipoPessoa == "S")).length = _
    apply congrArg
    apply List.filter_congr
    intro x _
    rw [Bool.eq_iff_iff]
    simp
  · rw [List.countP_eq_length_filter]
    show (afs.filter (fun a => a.isActive && decide (a.dataInicio ≤ hoje) &&
      (match a.dataFim with
       | none => true
       | some f => decide (hoje ≤ f)))).length = _
    apply congrArg
    apply List.filter_congr
    intro x _
    rw [Bool.eq_iff_iff]
    cases hdf : x.dataFim with
    | none => simp [hdf, and_assoc]
    | some f => simp [hdf, and_assoc]
  · rw [List.countP_eq_length_filter]
    show (dias.filter (fun d => d.isActive && d.statusId == 1)).length = _
    apply congrArg
    apply List.filter_congr
    intro x _
    rw [Bool.eq_iff_iff]
    simp
  · rw [List.countP_eq_length_filter]
    show (arms.filter (fun w => w.isActive && w.situacao == "EM_USO")).length = _
    apply congrArg
    apply List.filter_congr
    intro x _
    rw [Bool.eq_iff_iff]
    simp

/-- C7: the recent-activities feed is at most 5 entries (3 persons plus 2
per-diem rows), sorted by timestamp descending, and each entry is one of
the two activity shapes. -/
theorem getRecentActivities_bounded_sorted (pess : List Pessoa) (dias : List Diaria) :
    (getRecentActivities pess dias).length ≤ 5 ∧
    (getRecentActivities pess dias).Pairwise (fun a b => b.data ≤ a.data) ∧
    ∀ a ∈ getRecentActivities pess dias,
      a.tipo = "pessoa_criada" ∨ a.tipo = "diaria_criada" := by
  refine ⟨?_, ?_, ?_⟩
  · unfold getRecentActivities
    rw [length_sortByKeyDesc, List.length_append, List.length_map, List.length_map]
    have h1 := List.length_take_le 3
      (((SelectQuery.fromTable pess).whereSet (fun p => p.isActive)).orderByDesc
        (fun p => p.createdAt))
    have h2 := List.length_take_le 2
      (((SelectQuery.fromTable dias).whereSet (fun d => d.isActive)).orderByDesc
        (fun d => d.createdAt))
    omega
  · exact sortByKeyDesc_sorted _ _
  · intro a ha
    unfold getRecentActivities at ha
    rw [mem_sortByKeyDesc] at ha
    rcases List.mem_append.mp ha with h | h
    · obtain ⟨p, _, rfl⟩ := List.mem_map.mp h
      left
      rfl
    · obtain ⟨d, _, rfl⟩ := List.mem_map.mp h
      right
      rfl

/-- The single activity produced by the one-person fixture. -/
def atvCarlos : Atividade :=
  { id := 3, tipo := "pessoa_criada", descricao := "Nova pessoa cadastrada: Carlos",
    data := 2, pessoaNome := some "Carlos" }

/-- C7 witness: the feed over a one-person fixture is within the bound and
its entry has one of the two activity kinds. -/
theorem getRecentActivities_bounded_sorted_witness :
    (getRecentActivities [pessoaViva] []).length ≤ 5 ∧
    (atvCarlos.tipo = "pessoa_criada" ∨ atvCarlos.tipo = "diaria_criada") :=
  ⟨(getRecentActivities_bounded_sorted [pessoaViva] []).1,
   (getRecentActivities_bounded_sorted [pessoaViva] []).2.2 atvCarlos (by decide)⟩

end ERPRO
